import Mathlib

/-
  Verification development for the sobottaai recording/transcription pipeline.

  Shallow embedding of the Rust sources under src-tauri/src/ into Lean 4.
  Samples (f32 in the source) are modelled as exact rationals: all claims
  under study are about control flow, lengths and exact algebraic values,
  and the embedding performs the source arithmetic exactly, abstracting
  IEEE-754 rounding.  Panicking paths of the source are modelled as
  Option-valued functions returning none.  Machine integers (u16 channel
  counts, u32 sample rates) are modelled as Nat; no arithmetic in the
  embedded code can overflow them.
-/

namespace Sobotta

/-! ## Signal processor — src-tauri/src/audio/processing.rs -/

/-- Model of Rust slice chunks_exact: the first length/n chunks of size n,
trailing partial chunk dropped.  The source panics when n = 0; callers guard. -/
def chunksExact (n : Nat) (l : List ℚ) : List (List ℚ) :=
  (List.range (l.length / n)).map (fun i => (l.drop (i * n)).take n)

/-- to_mono (processing.rs:2-10): channels == 1 is the identity; otherwise the
samples are partitioned into frames of length channels and each frame is
averaged.  chunks_exact panics when channels = 0 (modelled as none). -/
def to_mono (samples : List ℚ) (channels : Nat) : Option (List ℚ) :=
  if channels = 1 then some samples
  else if channels = 0 then none
  else some ((chunksExact channels samples).map (fun frame => frame.sum / (channels : ℚ)))

/-- Index of the source sample for output index i: floor of i * source/target,
the as-usize truncation of the nonnegative fractional position. -/
def srcIdx (source_rate target_rate i : Nat) : Nat :=
  (Int.floor (((i * source_rate : Nat) : ℚ) / (target_rate : ℚ))).toNat

/-- Fractional part of the source position for output index i:
src_idx - idx as f64 (processing.rs:24). -/
def srcFrac (source_rate target_rate i : Nat) : ℚ :=
  ((i * source_rate : Nat) : ℚ) / (target_rate : ℚ) -
    ((srcIdx source_rate target_rate i : Nat) : ℚ)

/-- The value the resampler body (processing.rs:21-34) produces at output
index i: interpolate when idx+1 is in range, hold samples[idx] when only idx
is in range, 0 when both are past the end. -/
def resampleAt (samples : List ℚ) (source_rate target_rate i : Nat) : ℚ :=
  if srcIdx source_rate target_rate i + 1 < samples.length then
    samples.getD (srcIdx source_rate target_rate i) 0 *
        (1 - srcFrac source_rate target_rate i) +
      samples.getD (srcIdx source_rate target_rate i + 1) 0 *
        srcFrac source_rate target_rate i
  else if srcIdx source_rate target_rate i < samples.length then
    samples.getD (srcIdx source_rate target_rate i) 0
  else 0

/-- resample (processing.rs:13-37).  Equal rates: identity.  source_rate = 0
with target_rate nonzero and nonempty input: len/0.0 is +inf, the as-usize
cast saturates to usize::MAX and Vec::with_capacity aborts with a capacity
overflow (modelled as none); with empty input 0.0/0.0 is NaN, cast to 0, so
the result is empty.  Otherwise the output length is the truncation of
len / (source/target), i.e. len * target / source, exact-arithmetic model of
the f64 computation. -/
def resample (samples : List ℚ) (source_rate target_rate : Nat) : Option (List ℚ) :=
  if source_rate = target_rate then some samples
  else if source_rate = 0 then
    if samples.isEmpty then some [] else none
  else
    some ((List.range (samples.length * target_rate / source_rate)).map
      (resampleAt samples source_rate target_rate))

/-- Peak magnitude: samples.iter().map(abs).fold(0.0, max) (processing.rs:41). -/
def peakOf (samples : List ℚ) : ℚ :=
  samples.foldl (fun m s => max m |s|) 0

/-- normalize (processing.rs:40-52): silence guard below 0.001, gain
0.95/peak capped at 30, applied to every sample.  The source mutates the
slice in place; the model returns the new list. -/
def normalize (samples : List ℚ) : List ℚ :=
  if peakOf samples < 1 / 1000 then samples
  else samples.map (fun s => s * min (19 / 20 / peakOf samples) 30)

/-- Mean of squares (processing.rs:56-61 computes sqrt of this; 0.0 for empty
input).  The source only ever compares the square root against nonnegative
thresholds, and sqrt is monotone on nonnegatives, so comparisons are modelled
on the square: sqrt ms < c holds iff ms < c^2 for c bigger or equal 0. -/
def rms_energy_sq (samples : List ℚ) : ℚ :=
  if samples.isEmpty then 0
  else (samples.map (fun s => s * s)).sum / (samples.length : ℚ)

/-- preprocess (processing.rs:64-69): mono, then resample to 16000, then
normalize, in that order. -/
def preprocess (samples : List ℚ) (channels source_rate : Nat) : Option (List ℚ) :=
  match to_mono samples channels with
  | none => none
  | some mono =>
    match resample mono source_rate 16000 with
    | none => none
    | some resampled => some (normalize resampled)

/-! ## Model catalog — src-tauri/src/models/ -/

/-- Engine kind (models/mod.rs:21-26). -/
inductive Engine where
  | whisper
  | parakeet
  | cloudOpenAI
  | cloudGroq
deriving DecidableEq

/-- The id/engine projection of full_catalog() (models/mod.rs:97-102):
whisper_models::catalog() ++ parakeet_models::catalog() ++ cloud_models(),
in source order.  Only the id and engine fields are consulted by the
transcription dispatch under study. -/
def full_catalog : List (String × Engine) :=
  [("whisper-tiny", Engine.whisper),
   ("whisper-base", Engine.whisper),
   ("whisper-small", Engine.whisper),
   ("whisper-medium", Engine.whisper),
   ("whisper-large-v3-turbo", Engine.whisper),
   ("parakeet-tdt-0.6b-v2", Engine.parakeet),
   ("parakeet-tdt-0.6b-v3", Engine.parakeet),
   ("cloud-openai-whisper", Engine.cloudOpenAI),
   ("cloud-groq-whisper", Engine.cloudGroq)]

/-- engine_for_model (commands/transcription.rs:81-86): find the catalog entry
with the given id and return its engine. -/
def engine_for_model (model_id : String) : Option Engine :=
  (full_catalog.find? (fun m => m.1 == model_id)).map (fun m => m.2)

/-! ## Session store and transcription — src-tauri/src/commands/ -/

/-- TranscriptionResult (stt/mod.rs): text, detected language, segments as
(start_ms, end_ms, text), inference duration. -/
structure TranscriptionResult where
  text : String
  language : Option String
  segments : List (Nat × Nat × String)
  duration_ms : Nat
deriving DecidableEq

/-- The sessions map of RecordingState (recording.rs:13), HashMap modelled as
an association list with unique keys (HashMap keys are unique; all source
insertions use fresh UUIDs). -/
abbrev SessionStore : Type := List (String × List ℚ)

/-- get_session_audio (recording.rs:373-375): clone the entry out of the map,
leaving the map unchanged. -/
def get_session_samples (sessions : SessionStore) (session_id : String) : Option (List ℚ) :=
  (sessions.find? (fun e => e.1 == session_id)).map (fun e => e.2)

/-- insert_session_audio (recording.rs:378-384): HashMap::insert, replacing
any entry with the same key. -/
def insert_session_samples (sessions : SessionStore) (session_id : String)
    (samples : List ℚ) : SessionStore :=
  (session_id, samples) :: sessions.filter (fun e => !(e.1 == session_id))

/-- take_session_audio (recording.rs:387-389): HashMap::remove, returning the
removed samples and the map without that key. -/
def take_session_samples (sessions : SessionStore) (session_id : String) :
    Option (List ℚ) × SessionStore :=
  (get_session_samples sessions session_id,
   sessions.filter (fun e => !(e.1 == session_id)))

/-- The empty transcript returned on the silence short-circuit
(transcription.rs:113-118). -/
def emptyTranscript : TranscriptionResult :=
  { text := "", language := none, segments := [], duration_ms := 0 }

/-- transcribe (commands/transcription.rs:89-167), as a pure step function.
Everything after engine-kind resolution (API-key checks, engine load and
cache, inference locks, local or cloud inference) is abstracted into the
dispatch argument; its Nat component counts engine invocations reaching that
tail (the session-resolution, empty-audio, silence and catalog checks all
happen before any engine work).  The vocabulary read between the silence
check and engine resolution cannot fail (unwrap_or_default) and does not
branch; it is absorbed into the dispatch tail together with the options it
populates.  The source compares rms_energy < 0.01; the
model compares the mean square against 0.01^2 = 1/10000, which is equivalent
for the nonempty audio reaching that line.  The final component is the
resulting sessions map: the source reads it via a cloning lookup and never
mutates it on any path of transcribe. -/
def transcribe (sessions : SessionStore)
    (dispatch : Engine → List ℚ → Except String TranscriptionResult × Nat)
    (session_id model_id : String) :
    (Except String TranscriptionResult × Nat) × SessionStore :=
  match get_session_samples sessions session_id with
  | none => ((Except.error ("Session not found"), 0), sessions)
  | some aud =>
    if aud.isEmpty then ((Except.error ("No audio data in session"), 0), sessions)
    else if rms_energy_sq aud < 1 / 10000 then
      ((Except.ok emptyTranscript, 0), sessions)
    else
      match engine_for_model model_id with
      | none => ((Except.error ("Unknown model: " ++ model_id), 0), sessions)
      | some engine => (dispatch engine aud, sessions)

/-! ## Recording session lifecycle — src-tauri/src/commands/recording.rs -/

/-- RecordingState (recording.rs:9-18).  The buffer holds the shared sample
vector plus the device-reported rate and channel count; the two mpsc sender
options are modelled by whether they are present.  Cross-thread sharing of
the sample vector is abstracted: the model sees the buffer contents at the
linearization point of each command. -/
structure RecState where
  buffer : Option (List ℚ × Nat × Nat)
  sessions : SessionStore
  stop_signal : Bool
  level_stop : Bool
deriving DecidableEq

/-- StopResult (recording.rs:38-42). -/
structure StopResult where
  session_id : String
  duration_ms : Nat
  sample_count : Nat
deriving DecidableEq

/-- start_recording (recording.rs:45-218).  The double-start guard is checked
first, before any buffer creation, thread spawn or device work.  The whole
capture-thread initialization handshake (device lookup, format negotiation,
stream build and play) is abstracted into device_init, the combined
init_result of recording.rs:147-150: on error both signal slots are cleared
and the error is returned; on success the buffer is installed with the
device-reported rate and channels and both the capture and level-meter
threads are left running. -/
def start_recording (st : RecState) (device_init : Except String (Nat × Nat)) :
    Except String Unit × RecState :=
  if st.stop_signal then (Except.error ("Recording already in progress"), st)
  else
    match device_init with
    | Except.error e =>
        (Except.error e, { st with stop_signal := false, level_stop := false })
    | Except.ok (rate, channels) =>
        (Except.ok (),
         { st with buffer := some ([], rate, channels),
                   stop_signal := true, level_stop := true })

/-- stop_recording (recording.rs:220-304).  The level-meter signal is taken
unconditionally; absence of the stop signal is the NotRecording error; the
buffer Option is taken out of the state, its samples swapped out, and empty
raw samples are the NoAudioCaptured error.  Otherwise the raw samples are
preprocessed (a panicking preprocess, impossible for device-reported
metadata, propagates as none), duration is derived from the 16kHz count
(exact-arithmetic model of the f64 division), new_id stands for the fresh
UUID, and the processed audio is stored in the sessions map.  WAV saving and
event emission are external side effects outside the model. -/
def stop_recording (st : RecState) (new_id : String) :
    Option (Except String StopResult × RecState) :=
  let st1 : RecState := { st with level_stop := false }
  if st.stop_signal then
    let st2 : RecState := { st1 with stop_signal := false }
    match st2.buffer with
    | none => some (Except.error ("No audio buffer available"), st2)
    | some (raw, rate, channels) =>
      let st3 : RecState := { st2 with buffer := none }
      if raw.isEmpty then some (Except.error ("No audio data captured"), st3)
      else
        match preprocess raw channels rate with
        | none => none
        | some processed =>
          some (Except.ok
                  { session_id := new_id,
                    duration_ms := processed.length * 1000 / 16000,
                    sample_count := processed.length },
                { st3 with
                    sessions := insert_session_samples st3.sessions new_id processed })
  else some (Except.error ("No active recording"), st1)

/-! ## Hotkey rebinding — src-tauri/src/commands/settings.rs -/

/-- unregister_all (settings.rs:23): the global-shortcut manager drops every
registered shortcut.  The manager's registration set is modelled as a list;
the call always succeeds in the model. -/
def unregister_all {α : Type} (_registered : List α) : List α := []

/-- update_hotkey (settings.rs:19-79).  The shortcut type and the parser live
in the external tauri_plugin_global_shortcut crate, so both are parameters:
parse models hotkey.parse::<Shortcut>().  The source first calls
unregister_all, then parses, then registers the parsed shortcut with its
handler; the returned list is the final registration set.  The source error
string interpolates the parse error debug text; the model keeps only the
stable prefix and the offending spec. -/
def update_hotkey {α : Type} (parse : String → Option α) (registered : List α)
    (hotkey : String) : Except String Unit × List α :=
  let cleared := unregister_all registered
  match parse hotkey with
  | none => (Except.error ("Invalid hotkey: " ++ hotkey), cleared)
  | some shortcut => (Except.ok (), shortcut :: cleared)

/-! ## Spec-side definition for the resampler refinement claim -/

/-- Modelled from the spec: the per-index interpolation formula the spec
states for resample, in which a past-the-end neighbour (floor(p)+1 past the
input length) contributes 0.0 to the interpolation.  Written to be compared
with resampleAt, the formula the source implements. -/
def specInterp (samples : List ℚ) (source_rate target_rate i : Nat) : ℚ :=
  (if srcIdx source_rate target_rate i < samples.length then
      samples.getD (srcIdx source_rate target_rate i) 0
    else 0) * (1 - srcFrac source_rate target_rate i) +
    (if srcIdx source_rate target_rate i + 1 < samples.length then
      samples.getD (srcIdx source_rate target_rate i + 1) 0
    else 0) * srcFrac source_rate target_rate i

/-! ## Helper lemmas -/

/-- Folding the peak accumulator over samples scaled by a nonnegative gain
scales the accumulated peak by the same gain. -/
lemma foldl_peak_mul (g : ℚ) (hg : 0 ≤ g) :
    ∀ (l : List ℚ) (a : ℚ),
      (l.map (fun s => s * g)).foldl (fun m s => max m |s|) (a * g) =
        l.foldl (fun m s => max m |s|) a * g := by
  intro l
  induction l with
  | nil => intro a; rfl
  | cons x xs ih =>
    intro a
    have hmax : max (a * g) |x * g| = max a |x| * g := by
      rw [abs_mul, abs_of_nonneg hg, max_mul_of_nonneg _ _ hg]
    simp only [List.map_cons, List.foldl_cons, hmax, ih]

/-- Scaling every sample by a nonnegative gain scales the peak magnitude. -/
lemma peakOf_map_mul (l : List ℚ) (g : ℚ) (hg : 0 ≤ g) :
    peakOf (l.map (fun s => s * g)) = peakOf l * g := by
  have h := foldl_peak_mul g hg l 0
  rw [zero_mul] at h
  simpa [peakOf] using h

/-- The non-identity, non-panicking branch of resample, unfolded. -/
lemma resample_eq_map (x : List ℚ) (r t : Nat) (hne : r ≠ t) (hr : r ≠ 0) :
    resample x r t =
      some ((List.range (x.length * t / r)).map (resampleAt x r t)) := by
  simp [resample, hne, hr]

/-- Every output index of the resampler maps to an in-range source index:
i below the output length len*t/r forces floor(i*r/t) below len. -/
lemma srcIdx_lt_of_lt (n r t i : Nat) (hr : 0 < r) (hi : i < n * t / r) :
    srcIdx r t i < n := by
  have ht : 0 < t := by
    rcases Nat.eq_zero_or_pos t with h | h
    · subst h; simp at hi
    · exact h
  have h1 : (i + 1) * r ≤ n * t := (Nat.le_div_iff_mul_le hr).mp hi
  have h2 : i * r < n * t := by
    have : i * r < (i + 1) * r := by
      have := Nat.succ_le_of_lt hr
      nlinarith
    omega
  have hp : ((i * r : Nat) : ℚ) / (t : ℚ) < (n : ℚ) := by
    rw [div_lt_iff₀ (by exact_mod_cast ht)]
    exact_mod_cast h2
  have hfl : Int.floor (((i * r : Nat) : ℚ) / (t : ℚ)) < (n : ℤ) := by
    rw [Int.floor_lt]
    exact_mod_cast hp
  have hnn : 0 ≤ Int.floor (((i * r : Nat) : ℚ) / (t : ℚ)) :=
    Int.floor_nonneg.mpr (div_nonneg (by positivity) (by positivity))
  simp only [srcIdx]
  omega

/-- getD on a replicate list inside the bound returns the replicated value. -/
lemma getD_replicate_of_lt (c : ℚ) : ∀ (n i : Nat), i < n →
    (List.replicate n c).getD i 0 = c := by
  intro n
  induction n with
  | zero => intro i h; omega
  | succ m ih =>
    intro i h
    cases i with
    | zero => rfl
    | succ j => exact ih j (Nat.lt_of_succ_lt_succ h)

/-! ## Claim C1 — update_hotkey tears down before validating -/

/-- Claim C1, evaluated at a failing input: with one shortcut registered and
an unparseable new specification, update_hotkey returns the invalid-spec
error but the previously registered shortcut is gone, because
unregister_all runs before the parse.  The claim that the prior
registration survives an invalid specification is contradicted. -/
theorem c1_update_hotkey_unregisters_before_parse :
    update_hotkey (fun _ : String => (none : Option Nat)) [37] "Meta+Shift+Oops" =
      (Except.error ("Invalid hotkey: Meta+Shift+Oops"), ([] : List Nat)) ∧
    ([] : List Nat) ≠ [37] := by
  exact ⟨rfl, by simp⟩

/-! ## Claim C4 — totality of the signal-processor transforms -/

/-- Claim C4 counterexample: to_mono panics (chunks_exact with chunk size 0)
whenever channels = 0, already on the empty input, and resample panics
(capacity overflow from the saturating usize cast of len/0.0) when
source_rate = 0, the target rate is nonzero and the input is nonempty.  The
transforms are not total over every input. -/
theorem c4_totality_counterexample :
    to_mono ([] : List ℚ) 0 = none ∧ resample [(1 : ℚ)] 0 16000 = none := by
  constructor
  · norm_num [to_mono]
  · norm_num [resample]

/-- Claim C4 amended: to_mono panics exactly when channels = 0; resample
panics exactly when source_rate = 0 with a nonzero target rate and nonempty
input; normalize and the root-mean-square energy are total (normalize
preserves the length, the mean square is a well-defined nonnegative value,
so its square root never faults); and preprocess is total whenever the
channel count and source rate are nonzero. -/
theorem c4_totality_amended :
    (∀ (samples : List ℚ) (channels : Nat),
        to_mono samples channels = none ↔ channels = 0) ∧
    (∀ (samples : List ℚ) (r t : Nat),
        resample samples r t = none ↔ r = 0 ∧ t ≠ 0 ∧ samples ≠ []) ∧
    (∀ samples : List ℚ, (Sobotta.normalize samples).length = samples.length) ∧
    (∀ samples : List ℚ, 0 ≤ rms_energy_sq samples) ∧
    (∀ (samples : List ℚ) (channels r : Nat), channels ≠ 0 → r ≠ 0 →
        ∃ out, preprocess samples channels r = some out) := by
  refine ⟨?_, ?_, ?_, ?_, ?_⟩
  · intro s c
    rcases c with _ | _ | c <;> simp [to_mono]
  · intro s r t
    by_cases h1 : r = t
    · subst h1
      simp only [resample, if_pos rfl]
      constructor
      · intro h; exact absurd h (by simp)
      · rintro ⟨h0, hn, _⟩; subst h0; exact absurd rfl hn
    · by_cases h2 : r = 0
      · subst h2
        have ht : t ≠ 0 := fun h => h1 h.symm
        by_cases h3 : s = []
        · subst h3; simp [resample, h1]
        · simp [resample, h1, h3, List.isEmpty_iff, ht]
      · simp [resample, h1, h2]
  · intro s
    simp only [Sobotta.normalize]
    split_ifs <;> simp
  · intro s
    simp only [rms_energy_sq]
    split_ifs
    · exact le_refl 0
    · refine div_nonneg (List.sum_nonneg ?_) (Nat.cast_nonneg _)
      intro x hx
      rw [List.mem_map] at hx
      obtain ⟨a, -, rfl⟩ := hx
      exact mul_self_nonneg a
  · intro s c r hc hr
    have hm0 : (to_mono s c).isSome = true := by
      rcases c with _ | _ | c
      · exact absurd rfl hc
      · simp [to_mono]
      · simp [to_mono]
    obtain ⟨mono, hm⟩ := Option.isSome_iff_exists.mp hm0
    have hres0 : (resample mono r 16000).isSome = true := by
      by_cases hrt : r = 16000
      · simp [resample, hrt]
      · simp [resample, hrt, hr]
    obtain ⟨res, hres⟩ := Option.isSome_iff_exists.mp hres0
    exact ⟨Sobotta.normalize res, by simp [preprocess, hm, hres]⟩

/-- Witness for the amended C4: preprocess succeeds on a concrete stereo
input at 8 kHz. -/
theorem c4_totality_amended_witness :
    ∃ out, preprocess [(1 / 2 : ℚ), 1 / 2] 2 8000 = some out :=
  c4_totality_amended.2.2.2.2 [(1 / 2 : ℚ), 1 / 2] 2 8000 (by norm_num) (by norm_num)

/-! ## Claim C5 — normalize peak behaviour -/

/-- Claim C5: if the peak magnitude is below 0.001, normalize changes
nothing; if the gain 0.95/peak is at most 30 the output peak is exactly
0.95; otherwise the gain is capped at exactly 30, so every sample is
multiplied by 30 and the output peak is 30 times the input peak (input peak
0.01 yields output peak 0.30). -/
theorem c5_normalize_peak (samples : List ℚ) :
    (peakOf samples < 1 / 1000 → Sobotta.normalize samples = samples) ∧
    (1 / 1000 ≤ peakOf samples → 19 / 20 / peakOf samples ≤ 30 →
      peakOf (Sobotta.normalize samples) = 19 / 20) ∧
    (1 / 1000 ≤ peakOf samples → 30 < 19 / 20 / peakOf samples →
      Sobotta.normalize samples = samples.map (fun s => s * 30) ∧
      peakOf (Sobotta.normalize samples) = peakOf samples * 30) := by
  refine ⟨fun h => ?_, fun h1 h2 => ?_, fun h1 h2 => ?_⟩
  · simp only [Sobotta.normalize]
    rw [if_pos h]
  · have hmx0 : (0 : ℚ) < peakOf samples := lt_of_lt_of_le (by norm_num) h1
    have hnlt : ¬ peakOf samples < 1 / 1000 := not_lt.mpr h1
    have hgain : min (19 / 20 / peakOf samples) 30 = 19 / 20 / peakOf samples :=
      min_eq_left h2
    have hg0 : (0 : ℚ) ≤ 19 / 20 / peakOf samples :=
      le_of_lt (div_pos (by norm_num) hmx0)
    simp only [Sobotta.normalize, if_neg hnlt, hgain]
    rw [peakOf_map_mul _ _ hg0, mul_comm, div_mul_cancel₀ _ hmx0.ne']
  · have hnlt : ¬ peakOf samples < 1 / 1000 := not_lt.mpr h1
    have hgain : min (19 / 20 / peakOf samples) 30 = 30 := min_eq_right h2.le
    constructor
    · simp only [Sobotta.normalize, if_neg hnlt, hgain]
    · simp only [Sobotta.normalize, if_neg hnlt, hgain]
      exact peakOf_map_mul _ _ (by norm_num)

/-- Witness for C5: peak 0.01 puts normalize in the capped-gain case, where
every sample is scaled by exactly 30. -/
theorem c5_normalize_peak_witness :
    Sobotta.normalize [(1 / 100 : ℚ), -(1 / 100)] =
      [(1 / 100 : ℚ), -(1 / 100)].map (fun s => s * 30) ∧
    peakOf (Sobotta.normalize [(1 / 100 : ℚ), -(1 / 100)]) =
      peakOf [(1 / 100 : ℚ), -(1 / 100)] * 30 :=
  (c5_normalize_peak [(1 / 100 : ℚ), -(1 / 100)]).2.2
    (by norm_num [peakOf, abs_of_pos, abs_neg])
    (by norm_num [peakOf, abs_of_pos, abs_neg])

/-! ## Claim C2 — resampler characterization -/

/-- Claim C2 counterexample: at input [1, 1], rates 8000 to 16000, output
index 3 has fractional source position 1.5, whose neighbour index 2 is past
the end.  The claimed formula (past-the-end neighbour treated as 0.0)
predicts 1*(1-1/2) + 0*(1/2) = 1/2 there, but the source holds the last
sample and produces 1: the whole output is [1, 1, 1, 1]. -/
theorem c2_resample_counterexample :
    resample [(1 : ℚ), 1] 8000 16000 = some [1, 1, 1, 1] ∧
    specInterp [(1 : ℚ), 1] 8000 16000 3 = 1 / 2 ∧
    ((1 : ℚ) ≠ 1 / 2) := by
  refine ⟨?_, ?_, by norm_num⟩
  · have hr : List.range 4 = [0, 1, 2, 3] := rfl
    norm_num [resample, hr, resampleAt, srcFrac, srcIdx, List.getD]
  · norm_num [specInterp, srcFrac, srcIdx, List.getD]

/-- Claim C2 amended: equal rates are the identity; for distinct rates with
nonzero source rate the output has length floor(len * t / r) and its i-th
element is resampleAt; resampleAt agrees with the spec interpolation formula
whenever floor(p)+1 is in range, but holds the last sample (frac discarded,
no zero neighbour) when only floor(p) is in range, and is 0 past the end;
and a constant input resamples to a constant output. -/
theorem c2_resample_amended :
    (∀ (x : List ℚ) (r : Nat), resample x r r = some x) ∧
    (∀ (x : List ℚ) (r t : Nat), r ≠ t → 0 < r →
      resample x r t =
        some ((List.range (x.length * t / r)).map (resampleAt x r t))) ∧
    (∀ (x : List ℚ) (r t i : Nat),
      (srcIdx r t i + 1 < x.length → resampleAt x r t i = specInterp x r t i) ∧
      (x.length ≤ srcIdx r t i + 1 → srcIdx r t i < x.length →
        resampleAt x r t i = x.getD (srcIdx r t i) 0) ∧
      (x.length ≤ srcIdx r t i → resampleAt x r t i = 0)) ∧
    (∀ (c : ℚ) (n r t : Nat), 0 < r →
      ∃ m, resample (List.replicate n c) r t = some (List.replicate m c)) := by
  refine ⟨?_, ?_, ?_, ?_⟩
  · intro x r
    simp [resample]
  · intro x r t hne hr
    exact resample_eq_map x r t hne hr.ne'
  · intro x r t i
    refine ⟨fun h => ?_, fun h1 h2 => ?_, fun h => ?_⟩
    · have h0 : srcIdx r t i < x.length := Nat.lt_of_succ_lt h
      rw [resampleAt, if_pos h, specInterp, if_pos h0, if_pos h]
    · rw [resampleAt, if_neg (not_lt.mpr h1), if_pos h2]
    · rw [resampleAt, if_neg (not_lt.mpr (by omega)), if_neg (not_lt.mpr h)]
  · intro c n r t hr
    by_cases hrt : r = t
    · subst hrt
      exact ⟨n, by simp [resample]⟩
    · refine ⟨n * t / r, ?_⟩
      rw [resample_eq_map _ _ _ hrt hr.ne', List.length_replicate]
      have hall : ∀ b ∈ (List.range (n * t / r)).map
          (resampleAt (List.replicate n c) r t), b = c := by
        intro b hb
        rw [List.mem_map] at hb
        obtain ⟨i, hi, rfl⟩ := hb
        rw [List.mem_range] at hi
        have hidx : srcIdx r t i < n := srcIdx_lt_of_lt n r t i hr hi
        by_cases hb1 : srcIdx r t i + 1 < n
        · rw [resampleAt, List.length_replicate, if_pos hb1,
            getD_replicate_of_lt c n _ hidx, getD_replicate_of_lt c n _ hb1]
          ring
        · rw [resampleAt, List.length_replicate, if_neg hb1, if_pos hidx,
            getD_replicate_of_lt c n _ hidx]
      have heq := List.eq_replicate_of_mem hall
      rw [List.length_map, List.length_range] at heq
      rw [heq]

/-- Witness for the amended C2: identity at equal rates on a concrete list,
and a concrete constant input downsampled 2:1 staying constant. -/
theorem c2_resample_amended_witness :
    resample [(3 : ℚ)] 5 5 = some [3] ∧
    (∃ m, resample (List.replicate 4 (1 / 2 : ℚ)) 32000 16000 =
      some (List.replicate m (1 / 2 : ℚ))) :=
  ⟨c2_resample_amended.1 [3] 5,
   c2_resample_amended.2.2.2 (1 / 2) 4 32000 16000 (by norm_num)⟩

/-! ## Claim C7 — preprocess composition order -/

/-- Claim C7: preprocess is exactly normalize after resample-to-16000 after
to_mono, in that order, and on the stereo example [0.2, 0.8, 0.4, 0.6] at
16 kHz it produces two samples both equal to 0.95. -/
theorem c7_preprocess_composition :
    (∀ (samples : List ℚ) (channels source_rate : Nat),
      preprocess samples channels source_rate =
        (to_mono samples channels).bind
          (fun mono => (resample mono source_rate 16000).map Sobotta.normalize)) ∧
    preprocess [(1 / 5 : ℚ), 4 / 5, 2 / 5, 3 / 5] 2 16000 = some [19 / 20, 19 / 20] := by
  constructor
  · intro samples channels source_rate
    cases h1 : to_mono samples channels with
    | none => simp [preprocess, h1]
    | some mono =>
      cases h2 : resample mono source_rate 16000 with
      | none => simp [preprocess, h1, h2]
      | some r => simp [preprocess, h1, h2]
  · have hr : List.range 2 = [0, 1] := rfl
    norm_num [preprocess, to_mono, chunksExact, hr, List.take, List.drop, resample,
      Sobotta.normalize, peakOf, abs_of_pos, abs_neg]

/-! ## Claim C3 — session retention across transcription -/

/-- Claim C3 counterexample: transcribing concrete stored session s1 (the
lookup succeeds, the audio is non-silent, dispatch runs) leaves the store
unchanged, and a subsequent lookup with the same session id still finds the
entry — the claimed removal does not happen. -/
theorem c3_session_retained_counterexample :
    (transcribe [("s1", [(1 : ℚ)])] (fun _ _ => (Except.error ("boom"), 1))
        "s1" "whisper-tiny").2 = [("s1", [(1 : ℚ)])] ∧
    get_session_samples
      ((transcribe [("s1", [(1 : ℚ)])] (fun _ _ => (Except.error ("boom"), 1))
        "s1" "whisper-tiny").2) "s1" = some [(1 : ℚ)] := by
  constructor <;>
    norm_num [transcribe, get_session_samples, List.find?, rms_energy_sq,
      engine_for_model, full_catalog]

/-- Claim C3 amended: transcribe resolves the session audio through the
cloning get_session_audio and never mutates the Session Store on any path,
so the entry remains and the same session can be transcribed again; removal
exists only as the take_session_audio helper, which does remove its key but
is invoked by no transcription path. -/
theorem c3_transcribe_keeps_session :
    (∀ (sessions : SessionStore)
        (dispatch : Engine → List ℚ → Except String TranscriptionResult × Nat)
        (sid mid : String),
      (transcribe sessions dispatch sid mid).2 = sessions) ∧
    (∀ (sessions : SessionStore) (sid : String),
      get_session_samples (take_session_samples sessions sid).2 sid = none) := by
  constructor
  · intro sessions dispatch sid mid
    cases h : get_session_samples sessions sid with
    | none => simp [transcribe, h]
    | some aud =>
      simp only [transcribe, h]
      by_cases he : aud.isEmpty = true
      · rw [if_pos he]
      · rw [if_neg he]
        by_cases hs : rms_energy_sq aud < 1 / 10000
        · rw [if_pos hs]
        · rw [if_neg hs]
          cases engine_for_model mid <;> rfl
  · intro sessions sid
    have hfind : (sessions.filter (fun e => !(e.1 == sid))).find?
        (fun e => e.1 == sid) = none := by
      rw [List.find?_eq_none]
      intro x hx
      rw [List.mem_filter] at hx
      simpa using hx.2
    simp [get_session_samples, take_session_samples, hfind]

/-! ## Claim C6 — silence short-circuit avoids the engines -/

/-- Claim C6: a stored nonempty session whose audio is below the silence
threshold (RMS below 0.01, equivalently mean square below 1/10000) makes
transcribe return the empty transcript — empty text, no segments — with
zero engine invocations, whatever the dispatch tail and the model id, and
with the store unchanged. -/
theorem c6_transcribe_silence_short_circuit
    (sessions : SessionStore)
    (dispatch : Engine → List ℚ → Except String TranscriptionResult × Nat)
    (sid mid : String) (aud : List ℚ)
    (h1 : get_session_samples sessions sid = some aud)
    (h2 : aud ≠ [])
    (h3 : rms_energy_sq aud < 1 / 10000) :
    transcribe sessions dispatch sid mid =
      ((Except.ok emptyTranscript, 0), sessions) := by
  have he : aud.isEmpty = false := by
    cases aud with
    | nil => exact absurd rfl h2
    | cons a l => rfl
  simp only [transcribe, h1, he, Bool.false_eq_true, if_false]
  rw [if_pos h3]

/-- Witness for C6: a concrete one-sample near-silent session short-circuits
to the empty transcript with a dispatch tail that would report an invocation. -/
theorem c6_transcribe_silence_witness :
    transcribe [("s", [(1 / 1000 : ℚ)])] (fun _ _ => (Except.error ("boom"), 1))
        "s" "whisper-tiny" =
      ((Except.ok emptyTranscript, 0), [("s", [(1 / 1000 : ℚ)])]) :=
  c6_transcribe_silence_short_circuit _ _ _ _ [(1 / 1000 : ℚ)]
    (by simp [get_session_samples, List.find?])
    (by simp)
    (by norm_num [rms_energy_sq])

/-! ## Claim C10 — silence check precedes model resolution -/

/-- Claim C10: the silence short-circuit runs before the model catalog is
consulted — with silent stored audio, transcribe succeeds with the empty
transcript even for a model id absent from the catalog, and in particular
never reports the Unknown-model error for such an id. -/
theorem c10_silence_precedes_model_resolution
    (sessions : SessionStore)
    (dispatch : Engine → List ℚ → Except String TranscriptionResult × Nat)
    (sid : String) (aud : List ℚ)
    (h1 : get_session_samples sessions sid = some aud)
    (h2 : aud ≠ [])
    (h3 : rms_energy_sq aud < 1 / 10000) :
    ∀ mid : String, engine_for_model mid = none →
      (transcribe sessions dispatch sid mid).1.1 = Except.ok emptyTranscript ∧
      (transcribe sessions dispatch sid mid).1.1 ≠
        Except.error ("Unknown model: " ++ mid) := by
  intro mid _
  have he : aud.isEmpty = false := by
    cases aud with
    | nil => exact absurd rfl h2
    | cons a l => rfl
  have hred : transcribe sessions dispatch sid mid =
      ((Except.ok emptyTranscript, 0), sessions) := by
    simp only [transcribe, h1, he, Bool.false_eq_true, if_false]
    rw [if_pos h3]
  constructor
  · rw [hred]
  · rw [hred]
    simp

/-- Witness for C10: a concrete silent session with a model id that is not
in the catalog still yields the empty transcript, not an error. -/
theorem c10_silence_precedes_model_resolution_witness :
    (transcribe [("s", [(1 / 1000 : ℚ)])] (fun _ _ => (Except.error ("boom"), 1))
        "s" "no-such-model").1.1 = Except.ok emptyTranscript ∧
    (transcribe [("s", [(1 / 1000 : ℚ)])] (fun _ _ => (Except.error ("boom"), 1))
        "s" "no-such-model").1.1 ≠ Except.error ("Unknown model: " ++ "no-such-model") :=
  c10_silence_precedes_model_resolution _ _ _ [(1 / 1000 : ℚ)]
    (by simp [get_session_samples, List.find?])
    (by simp)
    (by norm_num [rms_energy_sq])
    "no-such-model" (by decide)

/-! ## Claim C8 — double start is rejected before device work -/

/-- Claim C8: when a session is already active (the stop signal is
installed), a second start_recording returns the AlreadyRecording error for
every possible device-initialization outcome — the guard precedes all
device work — and the state, including the buffer with its accumulated
samples and the stop signal, is returned unchanged. -/
theorem c8_start_recording_double_start (st : RecState)
    (device_init : Except String (Nat × Nat))
    (h : st.stop_signal = true) :
    start_recording st device_init =
      (Except.error ("Recording already in progress"), st) := by
  simp [start_recording, h]

/-- Witness for C8: a concrete active session with nonempty buffer rejects a
second start and is left intact. -/
theorem c8_start_recording_double_start_witness :
    start_recording
      { buffer := some ([(1 : ℚ)], 48000, 2), sessions := [],
        stop_signal := true, level_stop := true }
      (Except.ok (44100, 1)) =
      (Except.error ("Recording already in progress"),
       { buffer := some ([(1 : ℚ)], 48000, 2), sessions := [],
         stop_signal := true, level_stop := true }) :=
  c8_start_recording_double_start _ _ rfl

/-! ## Claim C9 — stop_recording error paths -/

/-- Claim C9: stop_recording returns the NotRecording error when no session
is active and the NoAudioCaptured error when the buffer yields no raw
samples; in both cases the sessions map is left unchanged, so no
preprocessed session is stored. -/
theorem c9_stop_recording_errors (st : RecState) (new_id : String) :
    (st.stop_signal = false →
      stop_recording st new_id =
        some (Except.error ("No active recording"),
          { st with level_stop := false }) ∧
      ({ st with level_stop := false } : RecState).sessions = st.sessions) ∧
    (∀ rate channels, st.stop_signal = true → st.buffer = some ([], rate, channels) →
      stop_recording st new_id =
        some (Except.error ("No audio data captured"),
          { st with level_stop := false, stop_signal := false, buffer := none }) ∧
      ({ st with level_stop := false, stop_signal := false, buffer := none } :
          RecState).sessions = st.sessions) := by
  constructor
  · intro h
    exact ⟨by simp [stop_recording, h], rfl⟩
  · intro rate channels h hb
    exact ⟨by simp [stop_recording, h, hb], rfl⟩

/-- Witness for C9: concrete states exercising both error paths. -/
theorem c9_stop_recording_errors_witness :
    (stop_recording
        { buffer := none, sessions := [], stop_signal := false, level_stop := false }
        "id1" =
      some (Except.error ("No active recording"),
        { buffer := none, sessions := [], stop_signal := false,
          level_stop := false })) ∧
    (stop_recording
        { buffer := some ([], 48000, 2), sessions := [], stop_signal := true,
          level_stop := true }
        "id2" =
      some (Except.error ("No audio data captured"),
        { buffer := none, sessions := [], stop_signal := false,
          level_stop := false })) :=
  ⟨((c9_stop_recording_errors _ "id1").1 rfl).1,
   ((c9_stop_recording_errors _ "id2").2 48000 2 rfl rfl).1⟩

end Sobotta
